import Mathlib

/-!
Shallow embedding of `main.go` of the photoroom_api repository: a directory
watcher that uploads newly created files to a remote image-processing API,
writes the response body into an output directory and archives the original.

File contents and HTTP bodies are byte strings, modelled as `String` with one
`Char` per byte.  The filesystem is a finite association of path strings to
entries.  The HTTP client is an oracle `Request → HTTPResult` supplied by the
environment; the multipart boundary the Go multipart writer picks at random is
a parameter `boundary`.
-/

/-- Configuration record, from `type Config struct` in main.go (lines 26-32). -/
structure Config where
  APIUrl : String
  APIKey : String
  BackgroundPrompt : String
  Margin : String
  OutputSize : String
deriving DecidableEq

/-- `sourceDir` constant of main.go. -/
def sourceDir : String := "./source"

/-- `destDir` constant of main.go. -/
def destDir : String := "./destination"

/-- `processedDir` constant of main.go. -/
def processedDir : String := "./processed"

/-- `configPath` constant of main.go. -/
def configPath : String := "config.yaml"

/-- A filesystem entry: a directory, or a regular file with its content. -/
inductive Entry where
  | dir : Entry
  | file : String → Entry
deriving DecidableEq

/-- The filesystem: a finite association of path strings to entries.
Paths are opaque keys (the Go code never normalises them beyond `filepath.Join`). -/
abbrev FS := List (String × Entry)

/-- Lookup of a path (`os.Stat` / `os.Open` resolution). -/
def fsFind : FS → String → Option Entry
  | [], _ => none
  | (k, e) :: rest, p => if k = p then some e else fsFind rest p

/-- Create or replace the entry at a path. -/
def fsSet : FS → String → Entry → FS
  | [], p, e => [(p, e)]
  | (k, e0) :: rest, p, e =>
    if k = p then (k, e) :: rest else (k, e0) :: fsSet rest p e

/-- Remove the entry at a path. -/
def fsErase : FS → String → FS
  | [], _ => []
  | (k, e) :: rest, p => if k = p then rest else (k, e) :: fsErase rest p

/-- `filepath.Join dir name` for the two-component joins main.go performs. -/
def joinPath (dir name : String) : String := dir ++ "/" ++ name

/-- The characters after the last `'/'` of a path (the file component of
`filepath.Split`, which equals `filepath.Base` on the separator-free entry
names fsnotify reports). -/
def afterLastSlash (l : List Char) : List Char :=
  l.foldl (fun acc c => if c = '/' then [] else acc ++ [c]) []

/-- `filepath.Split`'s file component / `filepath.Base` of a path. -/
def baseName (p : String) : String := String.mk (afterLastSlash p.toList)

/-- One part of the multipart/form-data body. -/
inductive FormPart where
  | filePart (fieldName fileName content : String)
  | formField (name value : String)
deriving DecidableEq

/-- Whether a part is a file part (as opposed to a plain string field). -/
def FormPart.isFilePart : FormPart → Bool
  | .filePart _ _ _ => true
  | .formField _ _ => false

/-- `writer.FormDataContentType()` for a given boundary. -/
def formDataContentType (boundary : String) : String :=
  "multipart/form-data; boundary=" ++ boundary

/-- An outbound HTTP request as main.go builds it. -/
structure Request where
  method : String
  url : String
  headers : List (String × String)
  parts : List FormPart
deriving DecidableEq

/-- Result of `io.ReadAll(res.Body)`: the full body bytes, or a read error. -/
inductive BodyRead where
  | ok (bytes : String)
  | err (msg : String)
deriving DecidableEq

/-- An HTTP response: status code plus the outcome of reading its body. -/
structure Response where
  status : Nat
  bodyRead : BodyRead
deriving DecidableEq

/-- Outcome of `client.Do(req)`: a response, or a transport error. -/
inductive HTTPResult where
  | resp (r : Response)
  | transportErr (msg : String)
deriving DecidableEq

/-- The environment's HTTP behaviour. -/
abbrev HTTPClient := Request → HTTPResult

/-- The request `processFile` constructs (main.go lines 151-180): a multipart
body with exactly one file part under field `imageFile` named by the file's
base name and carrying its bytes, then the three configured string fields;
method POST to the configured URL, `Content-Type` from the multipart writer
and the `x-api-key` header carrying the API key. -/
def buildRequest (cfg : Config) (boundary fileName content : String) : Request :=
  { method := "POST"
    url := cfg.APIUrl
    headers := [("Content-Type", formDataContentType boundary),
                ("x-api-key", cfg.APIKey)]
    parts := [FormPart.filePart "imageFile" fileName content,
              FormPart.formField "background.prompt" cfg.BackgroundPrompt,
              FormPart.formField "margin" cfg.Margin,
              FormPart.formField "outputSize" cfg.OutputSize] }

/-- Error wrapping of main.go line 147. -/
def openErr (detail : String) : String := "не удалось открыть файл: " ++ detail

/-- Error wrapping of main.go line 161. -/
def copyErr (detail : String) : String :=
  "ошибка при копировании данных файла: " ++ detail

/-- Error wrapping of main.go lines 192 and 200. -/
def readAllErr (e : String) : String := "ошибка при ReadAll: " ++ e

/-- Error of main.go line 195, embedding the response body text. -/
def apiErr (body : String) : String := "ошибка при получении ответа: " ++ body

/-- Error wrapping of main.go line 206. -/
def openOutErr (detail : String) : String := "Ошибка при открытии файла: " ++ detail

/-- The content of an optional entry when opened for writing: existing file
content, or empty when the file is freshly created. -/
def oldOf : Option Entry → String
  | some (Entry.file c) => c
  | _ => ""

/-- main.go lines 203-214: `os.OpenFile(filepath.Join(processedDir, fileName),
os.O_CREATE|os.O_WRONLY, 0644)` followed by `file.Write(respBody)`.  The flags
contain no `O_TRUNC`: the file is created if absent, but an existing file is
not truncated — the body is written at offset 0 and any prior content beyond
the body's length survives.  Opening fails if the output directory is missing
or the output path is a directory. -/
def writeOutput (fs : FS) (fileName body : String) : Except String FS :=
  match fsFind fs processedDir with
  | some Entry.dir =>
    if fsFind fs (joinPath processedDir fileName) = some Entry.dir then
      Except.error (openOutErr
        ("open " ++ joinPath processedDir fileName ++ ": is a directory"))
    else
      Except.ok (fsSet fs (joinPath processedDir fileName)
        (Entry.file (body ++
          (oldOf (fsFind fs (joinPath processedDir fileName))).drop body.length)))
  | _ => Except.error (openOutErr
      ("open " ++ joinPath processedDir fileName ++ ": no such file or directory"))

/-- main.go lines 189-216: on a non-200 status read the body and fail with an
error embedding its text (or the ReadAll error); on 200 read the body and
write it to the processed directory under the file's base name. -/
def handleResponse (fs : FS) (fileName : String) (r : Response) :
    Except String FS :=
  if r.status ≠ 200 then
    match r.bodyRead with
    | BodyRead.err e => Except.error (readAllErr e)
    | BodyRead.ok b => Except.error (apiErr b)
  else
    match r.bodyRead with
    | BodyRead.err e => Except.error (readAllErr e)
    | BodyRead.ok b => writeOutput fs fileName b

/-- `processFile` (main.go lines 139-217).  Opening a missing path fails as in
`os.Open`; opening a directory succeeds in Go but the subsequent `io.Copy`
fails, folded here into one error branch.  The global `config` pointer set
once in `main` is passed as the `cfg` argument.  The informational
`log.Println("process file:", ...)` line has no effect modelled by the claims
and is omitted. -/
def processFile (cfg : Config) (boundary : String) (http : HTTPClient)
    (fs : FS) (filePath : String) : Except String FS :=
  match fsFind fs filePath with
  | none => Except.error (openErr ("open " ++ filePath ++ ": no such file or directory"))
  | some Entry.dir => Except.error (copyErr ("read " ++ filePath ++ ": is a directory"))
  | some (Entry.file content) =>
    match http (buildRequest cfg boundary (baseName filePath) content) with
    | HTTPResult.transportErr e => Except.error e
    | HTTPResult.resp r => handleResponse fs (baseName filePath) r

/-- `os.Rename src (filepath.Join dstDir dstName)`: fails when the source is
absent or the destination directory does not exist; an existing destination
file is silently replaced (Unix rename semantics). -/
def rename (fs : FS) (src dstDir dstName : String) : Except String FS :=
  match fsFind fs src with
  | none => Except.error ("rename " ++ src ++ ": no such file or directory")
  | some e =>
    match fsFind fs dstDir with
    | some Entry.dir =>
      Except.ok (fsSet (fsErase fs src) (joinPath dstDir dstName) e)
    | _ => Except.error ("rename " ++ src ++ ": no such file or directory")

/-- `moveFile` (main.go lines 129-137): rename the source into the destination
directory under its base name; a rename error is only logged and the function
returns, otherwise the success line is printed. -/
def moveFile (fs : FS) (src dDir : String) : FS × List String :=
  match rename fs src dDir (baseName src) with
  | Except.ok fs' => (fs', ["File " ++ baseName src ++ " moved to " ++ dDir])
  | Except.error e =>
    (fs, ["error moving file: " ++ src ++ "; destination: " ++ dDir ++
          "; error: " ++ e])

/-- `isDirectory` (main.go lines 120-127): stat the path; a stat error is
logged and the path is reported as not a directory. -/
def isDirectory (fs : FS) (path : String) : Bool × List String :=
  match fsFind fs path with
  | none => (false, ["error: stat " ++ path ++ ": no such file or directory"])
  | some Entry.dir => (true, [])
  | some (Entry.file _) => (false, [])

/-- A watch event; `opCreate` models `event.Op & fsnotify.Create == fsnotify.Create`. -/
structure Event where
  name : String
  opCreate : Bool
deriving DecidableEq

/-- Observable state of the watch loop: the filesystem and the log lines
(log output and stdout combined). -/
structure WatchState where
  fs : FS
  log : List String
deriving DecidableEq

/-- Log line of main.go line 88. -/
def procErrLog (e : String) : String := "Ошибка обработки файла: " ++ e

/-- One iteration of the event branch of `dirWatcher` (main.go lines 78-93):
a creation event on a non-directory path runs `processFile`; on error the
error is logged and nothing moves, on success `moveFile` archives the
original.  The one-second `time.Sleep` before processing has no observable
effect in this sequential model and is omitted. -/
def handleEvent (cfg : Config) (boundary : String) (http : HTTPClient)
    (st : WatchState) (ev : Event) : WatchState :=
  if ev.opCreate then
    let d := isDirectory st.fs ev.name
    let st1 : WatchState := ⟨st.fs, st.log ++ d.2⟩
    if d.1 then st1
    else
      match processFile cfg boundary http st1.fs ev.name with
      | Except.error e => ⟨st1.fs, st1.log ++ [procErrLog e]⟩
      | Except.ok fs' =>
        let m := moveFile fs' ev.name destDir
        ⟨m.1, st1.log ++ m.2⟩
  else st

/-- The watch loop consuming a queue of events one at a time. -/
def runEvents (cfg : Config) (boundary : String) (http : HTTPClient) :
    WatchState → List Event → WatchState :=
  List.foldl (handleEvent cfg boundary http)

/-- A parsed YAML mapping: string keys to scalar string values, which is all
`Config`'s fields use. -/
abbrev YamlDoc := List (String × String)

/-- Key lookup in a parsed YAML mapping. -/
def yamlGet : YamlDoc → String → Option String
  | [], _ => none
  | (k, v) :: rest, key => if k = key then some v else yamlGet rest key

/-- `yaml.Unmarshal` into `Config` (main.go line 59): go-yaml fills each
tagged field from the matching key and leaves the zero value `""` when the
key is absent; an absent key is not an error. -/
def yamlUnmarshal (d : YamlDoc) : Config :=
  { APIUrl := (yamlGet d "api_url").getD ""
    APIKey := (yamlGet d "api_key").getD ""
    BackgroundPrompt := (yamlGet d "background_prompt").getD ""
    Margin := (yamlGet d "margin").getD ""
    OutputSize := (yamlGet d "output_size").getD "" }

/-- The config file as `loadConfig` can encounter it: unreadable, readable but
not valid YAML, or a valid mapping. -/
inductive ConfigFile where
  | absent
  | malformed
  | doc (d : YamlDoc)
deriving DecidableEq

/-- `loadConfig` (main.go lines 51-65): a read error or a YAML parse error is
returned; otherwise the unmarshalled record. -/
def loadConfig : ConfigFile → Except String Config
  | ConfigFile.absent =>
    Except.error ("open " ++ configPath ++ ": no such file or directory")
  | ConfigFile.malformed => Except.error "yaml: unmarshal errors"
  | ConfigFile.doc d => Except.ok (yamlUnmarshal d)

/-- Whether `main` reaches the watch loop or dies in `log.Fatalf`. -/
inductive MainOutcome where
  | fatalConfig (msg : String)
  | watchLoopStarted
deriving DecidableEq

/-- `main` (main.go lines 36-48): fatal exit on a config load error, otherwise
directory bootstrap (assumed to succeed) and the watch loop. -/
def mainFlow (cf : ConfigFile) : MainOutcome :=
  match loadConfig cf with
  | Except.error e => MainOutcome.fatalConfig e
  | Except.ok _ => MainOutcome.watchLoopStarted

/-! ## Helper lemmas -/

/-- The accumulator-resetting fold of `afterLastSlash` never keeps a slash. -/
theorem slash_not_mem_foldl (l : List Char) (acc : List Char) (h : '/' ∉ acc) :
    '/' ∉ l.foldl (fun acc c => if c = '/' then [] else acc ++ [c]) acc := by
  induction l generalizing acc with
  | nil => simpa using h
  | cons c cs ih =>
    simp only [List.foldl_cons]
    by_cases hc : c = '/'
    · subst hc
      simp only [if_pos rfl]
      exact ih [] (by simp)
    · simp only [if_neg hc]
      refine ih (acc ++ [c]) ?_
      intro hm
      rcases List.mem_append.mp hm with h1 | h1
      · exact h h1
      · exact hc ((List.mem_singleton.mp h1).symm)

/-- The base name of a path contains no separator. -/
theorem slash_not_mem_baseName (p : String) : '/' ∉ (baseName p).toList :=
  slash_not_mem_foldl p.toList [] (by simp)

/-- `isDirectory` on a regular file: no, and nothing logged. -/
theorem isDirectory_file (fs : FS) (p c : String)
    (h : fsFind fs p = some (Entry.file c)) : isDirectory fs p = (false, []) := by
  simp [isDirectory, h]

/-- `isDirectory` on a directory: yes, and nothing logged. -/
theorem isDirectory_dir (fs : FS) (p : String)
    (h : fsFind fs p = some Entry.dir) : isDirectory fs p = (true, []) := by
  simp [isDirectory, h]

/-- `isDirectory` on a missing path: the stat error is logged and the path is
reported as not a directory. -/
theorem isDirectory_missing (fs : FS) (p : String) (h : fsFind fs p = none) :
    isDirectory fs p =
      (false, ["error: stat " ++ p ++ ": no such file or directory"]) := by
  simp [isDirectory, h]

/-- A creation event on an existing regular file runs `processFile` and then
branches exactly on its outcome: relocation on success, a log line on error. -/
theorem handleEvent_create_file (cfg : Config) (boundary : String)
    (http : HTTPClient) (st : WatchState) (path content : String)
    (h : fsFind st.fs path = some (Entry.file content)) :
    handleEvent cfg boundary http st ⟨path, true⟩ =
      (match processFile cfg boundary http st.fs path with
       | Except.ok fs' => (⟨(moveFile fs' path destDir).1,
           st.log ++ (moveFile fs' path destDir).2⟩ : WatchState)
       | Except.error e => ⟨st.fs, st.log ++ [procErrLog e]⟩) := by
  have hd := isDirectory_file st.fs path content h
  unfold handleEvent
  simp only [hd]
  cases hp : processFile cfg boundary http st.fs path with
  | error e => simp [hp]
  | ok fs' => simp [hp]

/-! ## Concrete scenario used by witnesses and counterexamples -/

/-- An example configuration. -/
def cfgEx : Config :=
  ⟨"https://api.example/v1/segment", "KEY", "beach", "10", "1024x1024"⟩

/-- An endpoint that always answers 200 with the given body. -/
def httpOk (body : String) : HTTPClient :=
  fun _ => HTTPResult.resp ⟨200, BodyRead.ok body⟩

/-- An endpoint that always answers the given status with the given body. -/
def httpStatus (code : Nat) (body : String) : HTTPClient :=
  fun _ => HTTPResult.resp ⟨code, BodyRead.ok body⟩

/-- An endpoint that answers 200 but whose body cannot be read to the end. -/
def httpReadFail (e : String) : HTTPClient :=
  fun _ => HTTPResult.resp ⟨200, BodyRead.err e⟩

/-- The bootstrapped layout with one source file of ten bytes. -/
def fsBase : FS :=
  [(sourceDir, Entry.dir), (destDir, Entry.dir), (processedDir, Entry.dir),
   ("./source/cat.png", Entry.file "0123456789")]

/-- The same layout with a stale ten-byte output file already present. -/
def fsPrior : FS :=
  [(sourceDir, Entry.dir), (destDir, Entry.dir), (processedDir, Entry.dir),
   ("./source/cat.png", Entry.file "0123456789"),
   ("./processed/cat.png", Entry.file "OLDCONTENT")]

/-! ## C1 -/

/-- C1 (counterexample): with a stale longer `./processed/cat.png` already
present, a 200 response with body `RESULT` leaves the output file holding
`RESULTTENT`, not exactly the response bytes — the open flags lack `O_TRUNC`,
so the claim's "truncating/overwriting ... regardless of any prior content"
is false on this input. -/
theorem c1_counterexample :
    processFile cfgEx "B" (httpOk "RESULT") fsPrior "./source/cat.png" =
      Except.ok (fsSet fsPrior "./processed/cat.png" (Entry.file "RESULTTENT")) ∧
    fsFind (fsSet fsPrior "./processed/cat.png" (Entry.file "RESULTTENT"))
      "./processed/cat.png" = some (Entry.file "RESULTTENT") ∧
    "RESULTTENT" ≠ "RESULT" := by
  refine ⟨rfl, rfl, by decide⟩

/-- C1 (amended): on HTTP 200 the pipeline writes the response body to the
file named by the source file's base name in the processed directory,
creating it if absent; the file is opened without truncation and written at
offset 0, so the resulting content is the response bytes followed by any
prior content beyond the response's length (exactly the response bytes only
when no longer prior content existed). -/
theorem c1_write_no_truncation (cfg : Config) (boundary : String)
    (http : HTTPClient) (fs : FS) (path content b : String)
    (hopen : fsFind fs path = some (Entry.file content))
    (hhttp : http (buildRequest cfg boundary (baseName path) content) =
      HTTPResult.resp ⟨200, BodyRead.ok b⟩)
    (hdir : fsFind fs processedDir = some Entry.dir)
    (hout : fsFind fs (joinPath processedDir (baseName path)) ≠ some Entry.dir) :
    processFile cfg boundary http fs path =
      Except.ok (fsSet fs (joinPath processedDir (baseName path))
        (Entry.file (b ++
          (oldOf (fsFind fs (joinPath processedDir (baseName path)))).drop
            b.length))) := by
  simp [processFile, hopen, hhttp, handleResponse, writeOutput, hdir, hout]

/-- C1 witness: the amended statement evaluated on the stale-output scenario. -/
theorem c1_witness :
    processFile cfgEx "B" (httpOk "RESULT") fsPrior "./source/cat.png" =
      Except.ok (fsSet fsPrior "./processed/cat.png" (Entry.file "RESULTTENT")) :=
  c1_write_no_truncation cfgEx "B" (httpOk "RESULT") fsPrior "./source/cat.png"
    "0123456789" "RESULT" rfl rfl rfl (by decide)

/-! ## C2 -/

/-- A syntactically valid config document that lacks the `api_url` key. -/
def docMissingUrl : YamlDoc := [("api_key", "KEY"), ("background_prompt", "beach")]

/-- C2 (counterexample): a well-formed config file missing the `api_url` key
loads without error — go-yaml leaves the field at its zero value — and `main`
proceeds to the watch loop instead of exiting. -/
theorem c2_counterexample :
    yamlGet docMissingUrl "api_url" = none ∧
    loadConfig (ConfigFile.doc docMissingUrl) =
      Except.ok (yamlUnmarshal docMissingUrl) ∧
    (yamlUnmarshal docMissingUrl).APIUrl = "" ∧
    mainFlow (ConfigFile.doc docMissingUrl) = MainOutcome.watchLoopStarted :=
  ⟨rfl, rfl, rfl, rfl⟩

/-- C2 (amended): configuration loading fails — and the process exits before
the watch loop — only when the file cannot be read or is not valid YAML; a
file that parses but lacks the endpoint-URL key loads successfully with an
empty endpoint URL and the watch loop starts. -/
theorem c2_load_fails_only_on_read_or_parse (d : YamlDoc) :
    mainFlow (ConfigFile.doc d) = MainOutcome.watchLoopStarted ∧
    (yamlGet d "api_url" = none → (yamlUnmarshal d).APIUrl = "") ∧
    mainFlow ConfigFile.absent =
      MainOutcome.fatalConfig
        ("open " ++ configPath ++ ": no such file or directory") ∧
    mainFlow ConfigFile.malformed =
      MainOutcome.fatalConfig "yaml: unmarshal errors" := by
  refine ⟨rfl, ?_, rfl, rfl⟩
  intro h
  simp [yamlUnmarshal, h]

/-- C2 witness: the amended statement evaluated on the key-missing document. -/
theorem c2_witness :
    mainFlow (ConfigFile.doc docMissingUrl) = MainOutcome.watchLoopStarted ∧
    (yamlGet docMissingUrl "api_url" = none →
      (yamlUnmarshal docMissingUrl).APIUrl = "") ∧
    mainFlow ConfigFile.absent =
      MainOutcome.fatalConfig
        ("open " ++ configPath ++ ": no such file or directory") ∧
    mainFlow ConfigFile.malformed =
      MainOutcome.fatalConfig "yaml: unmarshal errors" :=
  c2_load_fails_only_on_read_or_parse docMissingUrl

/-! ## C3 -/

/-- C3: on any non-200 response whose body reads back as `b`, the pipeline
fails with the error embedding `b`, and the watch loop only logs it — the
filesystem (in particular the processed directory) is unchanged. -/
theorem c3_non200_error_embeds_body (cfg : Config) (boundary : String)
    (http : HTTPClient) (st : WatchState) (path content b : String) (code : Nat)
    (hopen : fsFind st.fs path = some (Entry.file content))
    (hhttp : http (buildRequest cfg boundary (baseName path) content) =
      HTTPResult.resp ⟨code, BodyRead.ok b⟩)
    (hcode : code ≠ 200) :
    processFile cfg boundary http st.fs path = Except.error (apiErr b) ∧
    handleEvent cfg boundary http st ⟨path, true⟩ =
      ⟨st.fs, st.log ++ [procErrLog (apiErr b)]⟩ := by
  have hp : processFile cfg boundary http st.fs path = Except.error (apiErr b) := by
    simp [processFile, hopen, hhttp, handleResponse, hcode]
  refine ⟨hp, ?_⟩
  rw [handleEvent_create_file cfg boundary http st path content hopen, hp]

/-- C3 witness: a 500 response with body `bad image` on the base scenario. -/
theorem c3_witness :
    processFile cfgEx "B" (httpStatus 500 "bad image") fsBase "./source/cat.png" =
      Except.error (apiErr "bad image") ∧
    handleEvent cfgEx "B" (httpStatus 500 "bad image") ⟨fsBase, []⟩
      ⟨"./source/cat.png", true⟩ = ⟨fsBase, [procErrLog (apiErr "bad image")]⟩ :=
  c3_non200_error_embeds_body cfgEx "B" (httpStatus 500 "bad image")
    ⟨fsBase, []⟩ "./source/cat.png" "0123456789" "bad image" 500 rfl rfl
    (by decide)

/-! ## C4 -/

/-- C4: when the 200 response's body read fails, the pipeline returns the
ReadAll error before opening the output file, so the watch loop only logs it
and no output file is created — the filesystem is unchanged. -/
theorem c4_read_failure_no_output (cfg : Config) (boundary : String)
    (http : HTTPClient) (st : WatchState) (path content e : String)
    (hopen : fsFind st.fs path = some (Entry.file content))
    (hhttp : http (buildRequest cfg boundary (baseName path) content) =
      HTTPResult.resp ⟨200, BodyRead.err e⟩) :
    processFile cfg boundary http st.fs path = Except.error (readAllErr e) ∧
    handleEvent cfg boundary http st ⟨path, true⟩ =
      ⟨st.fs, st.log ++ [procErrLog (readAllErr e)]⟩ := by
  have hp : processFile cfg boundary http st.fs path =
      Except.error (readAllErr e) := by
    simp [processFile, hopen, hhttp, handleResponse]
  refine ⟨hp, ?_⟩
  rw [handleEvent_create_file cfg boundary http st path content hopen, hp]

/-- C4 witness: a failed body read on the base scenario. -/
theorem c4_witness :
    processFile cfgEx "B" (httpReadFail "unexpected EOF") fsBase
      "./source/cat.png" = Except.error (readAllErr "unexpected EOF") ∧
    handleEvent cfgEx "B" (httpReadFail "unexpected EOF") ⟨fsBase, []⟩
      ⟨"./source/cat.png", true⟩ =
      ⟨fsBase, [procErrLog (readAllErr "unexpected EOF")]⟩ :=
  c4_read_failure_no_output cfgEx "B" (httpReadFail "unexpected EOF")
    ⟨fsBase, []⟩ "./source/cat.png" "0123456789" "unexpected EOF" rfl rfl

/-! ## C5 -/

/-- C5: for a creation event on an existing non-directory path, the watch loop
relocates the original into the destination directory exactly when the
pipeline succeeded; on pipeline failure the error is logged and the
filesystem — hence the original file — is left untouched. -/
theorem c5_relocate_iff_success (cfg : Config) (boundary : String)
    (http : HTTPClient) (st : WatchState) (path content : String)
    (hopen : fsFind st.fs path = some (Entry.file content)) :
    handleEvent cfg boundary http st ⟨path, true⟩ =
      (match processFile cfg boundary http st.fs path with
       | Except.ok fs' => (⟨(moveFile fs' path destDir).1,
           st.log ++ (moveFile fs' path destDir).2⟩ : WatchState)
       | Except.error e => ⟨st.fs, st.log ++ [procErrLog e]⟩) :=
  handleEvent_create_file cfg boundary http st path content hopen

/-- C5 witness: the happy path on the base scenario — the response is written
to the processed directory and the original moves to the destination. -/
theorem c5_witness :
    handleEvent cfgEx "B" (httpOk "RESULT") ⟨fsBase, []⟩
      ⟨"./source/cat.png", true⟩ =
      ⟨[(sourceDir, Entry.dir), (destDir, Entry.dir), (processedDir, Entry.dir),
        ("./processed/cat.png", Entry.file "RESULT"),
        ("./destination/cat.png", Entry.file "0123456789")],
       ["File cat.png moved to ./destination"]⟩ :=
  c5_relocate_iff_success cfgEx "B" (httpOk "RESULT") ⟨fsBase, []⟩
    "./source/cat.png" "0123456789" rfl

/-! ## C6 -/

/-- C6: the multipart body always consists of exactly one file part — field
`imageFile`, named by the source file's base name, which contains no path
separator — followed by the three configured string fields, whose names are
fixed and independent of the file. -/
theorem c6_multipart_shape (cfg : Config) (boundary p content : String) :
    (buildRequest cfg boundary (baseName p) content).parts =
      [FormPart.filePart "imageFile" (baseName p) content,
       FormPart.formField "background.prompt" cfg.BackgroundPrompt,
       FormPart.formField "margin" cfg.Margin,
       FormPart.formField "outputSize" cfg.OutputSize] ∧
    ((buildRequest cfg boundary (baseName p) content).parts.filter
      FormPart.isFilePart).length = 1 ∧
    '/' ∉ (baseName p).toList := by
  refine ⟨rfl, ?_, slash_not_mem_baseName p⟩
  simp [buildRequest, FormPart.isFilePart]

/-! ## C7 -/

/-- C7: the single request the pipeline issues for an openable file is the
built multipart request — two clients that agree on it make `processFile`
behave identically — and that request is a POST to the configured URL whose
headers are exactly the multipart `Content-Type` and the `x-api-key` header
carrying the configured key. -/
theorem c7_request_headers (cfg : Config) (boundary : String)
    (http http2 : HTTPClient) (fs : FS) (path content : String)
    (hopen : fsFind fs path = some (Entry.file content))
    (hagree : http (buildRequest cfg boundary (baseName path) content) =
      http2 (buildRequest cfg boundary (baseName path) content)) :
    (buildRequest cfg boundary (baseName path) content).method = "POST" ∧
    (buildRequest cfg boundary (baseName path) content).url = cfg.APIUrl ∧
    (buildRequest cfg boundary (baseName path) content).headers =
      [("Content-Type", formDataContentType boundary),
       ("x-api-key", cfg.APIKey)] ∧
    processFile cfg boundary http fs path =
      processFile cfg boundary http2 fs path := by
  refine ⟨rfl, rfl, rfl, ?_⟩
  simp [processFile, hopen, hagree]

/-- A client that answers only the request built for the base scenario. -/
def httpOnlyReq : HTTPClient := fun r =>
  if r = buildRequest cfgEx "B" (baseName "./source/cat.png") "0123456789" then
    HTTPResult.resp ⟨200, BodyRead.ok "RESULT"⟩
  else HTTPResult.transportErr "connection refused"

/-- C7 witness: on the base scenario the always-200 client and the client
answering only the built request are indistinguishable to the pipeline. -/
theorem c7_witness :
    (buildRequest cfgEx "B" (baseName "./source/cat.png") "0123456789").method =
      "POST" ∧
    (buildRequest cfgEx "B" (baseName "./source/cat.png") "0123456789").url =
      cfgEx.APIUrl ∧
    (buildRequest cfgEx "B" (baseName "./source/cat.png") "0123456789").headers =
      [("Content-Type", formDataContentType "B"), ("x-api-key", cfgEx.APIKey)] ∧
    processFile cfgEx "B" (httpOk "RESULT") fsBase "./source/cat.png" =
      processFile cfgEx "B" httpOnlyReq fsBase "./source/cat.png" :=
  c7_request_headers cfgEx "B" (httpOk "RESULT") httpOnlyReq fsBase
    "./source/cat.png" "0123456789" rfl (by decide)

/-! ## C8 -/

/-- C8: a creation event whose path is a directory is ignored: the watch
state is returned unchanged, so the pipeline never runs and nothing is
relocated. -/
theorem c8_dir_event_ignored (cfg : Config) (boundary : String)
    (http : HTTPClient) (st : WatchState) (path : String)
    (hdir : fsFind st.fs path = some Entry.dir) :
    handleEvent cfg boundary http st ⟨path, true⟩ = st := by
  have hd := isDirectory_dir st.fs path hdir
  unfold handleEvent
  simp [hd]

/-- The base scenario with a directory freshly created under the source. -/
def fsWithDir : FS :=
  [(sourceDir, Entry.dir), (destDir, Entry.dir), (processedDir, Entry.dir),
   ("./source/cat.png", Entry.file "0123456789"),
   ("./source/newdir", Entry.dir)]

/-- C8 witness: a create event for `./source/newdir` leaves the state as is. -/
theorem c8_witness :
    handleEvent cfgEx "B" (httpOk "RESULT") ⟨fsWithDir, []⟩
      ⟨"./source/newdir", true⟩ = ⟨fsWithDir, []⟩ :=
  c8_dir_event_ignored cfgEx "B" (httpOk "RESULT") ⟨fsWithDir, []⟩
    "./source/newdir" rfl

/-! ## C9 -/

/-- C9: when the created path cannot be stat'ed, the stat error is logged and
the path is treated as a non-directory, so the pipeline still runs, fails to
open the now-missing file, and that error is logged too; the filesystem is
unchanged and the loop goes on to the next event. -/
theorem c9_stat_error_still_processed (cfg : Config) (boundary : String)
    (http : HTTPClient) (st : WatchState) (path : String) (evs : List Event)
    (hmiss : fsFind st.fs path = none) :
    isDirectory st.fs path =
      (false, ["error: stat " ++ path ++ ": no such file or directory"]) ∧
    processFile cfg boundary http st.fs path =
      Except.error (openErr ("open " ++ path ++ ": no such file or directory")) ∧
    handleEvent cfg boundary http st ⟨path, true⟩ =
      ⟨st.fs, st.log ++ ["error: stat " ++ path ++ ": no such file or directory",
        procErrLog (openErr ("open " ++ path ++ ": no such file or directory"))]⟩ ∧
    runEvents cfg boundary http st (⟨path, true⟩ :: evs) =
      runEvents cfg boundary http (handleEvent cfg boundary http st ⟨path, true⟩)
        evs := by
  have hd := isDirectory_missing st.fs path hmiss
  have hp : processFile cfg boundary http st.fs path =
      Except.error (openErr ("open " ++ path ++ ": no such file or directory")) := by
    simp [processFile, hmiss]
  refine ⟨hd, hp, ?_, rfl⟩
  unfold handleEvent
  simp [hd, hp]

/-- C9 witness: a create event for a path that vanished before the stat. -/
theorem c9_witness :
    isDirectory fsBase "./source/ghost.png" =
      (false,
       ["error: stat ./source/ghost.png: no such file or directory"]) ∧
    processFile cfgEx "B" (httpOk "RESULT") fsBase "./source/ghost.png" =
      Except.error
        (openErr "open ./source/ghost.png: no such file or directory") ∧
    handleEvent cfgEx "B" (httpOk "RESULT") ⟨fsBase, []⟩
      ⟨"./source/ghost.png", true⟩ =
      ⟨fsBase, ["error: stat ./source/ghost.png: no such file or directory",
        procErrLog
          (openErr "open ./source/ghost.png: no such file or directory")]⟩ ∧
    runEvents cfgEx "B" (httpOk "RESULT") ⟨fsBase, []⟩
      [⟨"./source/ghost.png", true⟩] =
      runEvents cfgEx "B" (httpOk "RESULT")
        (handleEvent cfgEx "B" (httpOk "RESULT") ⟨fsBase, []⟩
          ⟨"./source/ghost.png", true⟩) [] :=
  c9_stat_error_still_processed cfgEx "B" (httpOk "RESULT") ⟨fsBase, []⟩
    "./source/ghost.png" [] rfl

/-! ## C10 -/

/-- C10: when the rename after a successful upload fails, the move error is
only logged: the watch state keeps exactly the filesystem the pipeline
produced — the output file written to the processed directory included — and
the loop goes on to the next event. -/
theorem c10_move_failure_logged (cfg : Config) (boundary : String)
    (http : HTTPClient) (st : WatchState) (path content : String) (fs2 : FS)
    (e : String) (evs : List Event)
    (hopen : fsFind st.fs path = some (Entry.file content))
    (hok : processFile cfg boundary http st.fs path = Except.ok fs2)
    (hfail : rename fs2 path destDir (baseName path) = Except.error e) :
    moveFile fs2 path destDir =
      (fs2, ["error moving file: " ++ path ++ "; destination: " ++ destDir ++
        "; error: " ++ e]) ∧
    handleEvent cfg boundary http st ⟨path, true⟩ =
      ⟨fs2, st.log ++ ["error moving file: " ++ path ++ "; destination: " ++
        destDir ++ "; error: " ++ e]⟩ ∧
    runEvents cfg boundary http st (⟨path, true⟩ :: evs) =
      runEvents cfg boundary http (handleEvent cfg boundary http st ⟨path, true⟩)
        evs := by
  have hm : moveFile fs2 path destDir =
      (fs2, ["error moving file: " ++ path ++ "; destination: " ++ destDir ++
        "; error: " ++ e]) := by
    simp [moveFile, hfail]
  refine ⟨hm, ?_, rfl⟩
  rw [handleEvent_create_file cfg boundary http st path content hopen, hok]
  simp [hm]

/-- The layout whose destination directory is missing. -/
def fsNoDest : FS :=
  [(sourceDir, Entry.dir), (processedDir, Entry.dir),
   ("./source/cat.png", Entry.file "0123456789")]

/-- `fsNoDest` after the pipeline wrote the response to the processed dir. -/
def fsNoDestAfter : FS :=
  [(sourceDir, Entry.dir), (processedDir, Entry.dir),
   ("./source/cat.png", Entry.file "0123456789"),
   ("./processed/cat.png", Entry.file "RESULT")]

/-- C10 witness: with the destination directory gone, the upload succeeds,
the rename fails and is logged, and the processed output survives. -/
theorem c10_witness :
    moveFile fsNoDestAfter "./source/cat.png" destDir =
      (fsNoDestAfter,
       ["error moving file: ./source/cat.png; destination: " ++ destDir ++
        "; error: rename ./source/cat.png: no such file or directory"]) ∧
    handleEvent cfgEx "B" (httpOk "RESULT") ⟨fsNoDest, []⟩
      ⟨"./source/cat.png", true⟩ =
      ⟨fsNoDestAfter,
       ["error moving file: ./source/cat.png; destination: " ++ destDir ++
        "; error: rename ./source/cat.png: no such file or directory"]⟩ ∧
    runEvents cfgEx "B" (httpOk "RESULT") ⟨fsNoDest, []⟩
      [⟨"./source/cat.png", true⟩] =
      runEvents cfgEx "B" (httpOk "RESULT")
        (handleEvent cfgEx "B" (httpOk "RESULT") ⟨fsNoDest, []⟩
          ⟨"./source/cat.png", true⟩) [] :=
  c10_move_failure_logged cfgEx "B" (httpOk "RESULT") ⟨fsNoDest, []⟩
    "./source/cat.png" "0123456789" fsNoDestAfter
    "rename ./source/cat.png: no such file or directory" [] rfl rfl rfl
